import Mathlib

/-!
Verification of the consumer message-handling pipeline of the
temperature-and-humidity simulator.

The embedding models `handleMessage` from `src/consumer/src/index.ts`
(lines 68-119) together with the metric registry it mutates, the broker
dispositions it issues (`channel.ack` / `channel.nack`), and the metrics
push (`pushMetrics`, lines 54-61).  The producer's `generateSensorData`
from `src/producer/src/index.ts` (lines 17-39) is embedded as well.

Message bodies are modelled at the level the handler observes them:
`JSON.parse` either throws (the `Body.malformed` case) or yields a
structured JavaScript value (`Body.decoded v` with `v : JsValue`).
Numbers are rationals (JSON literals are finite decimals).  Side effects
on the broker channel and the push gateway are recorded in an ordered
effect trace; mutation of the Prometheus registry is explicit state
passing over `MetricState`.
-/

/-- A JavaScript value as produced by `JSON.parse`. -/
inductive JsValue where
  | null
  | bool (b : Bool)
  | num (q : ℚ)
  | str (s : String)
  | arr (elems : List JsValue)
  | obj (fields : List (String × JsValue))

/-- JavaScript truthiness of a parsed value (`if (data && ...)`).
`NaN` is not representable in JSON, so numbers are falsy exactly at 0. -/
def truthy : JsValue → Bool
  | JsValue.null => false
  | JsValue.bool b => b
  | JsValue.num q => !(q == 0)
  | JsValue.str s => !(s == "")
  | JsValue.arr _ => true
  | JsValue.obj _ => true

/-- Property access `data.key` on a parsed value: defined on objects,
`undefined` (here `none`) on every other value. -/
def getProp (v : JsValue) (key : String) : Option JsValue :=
  match v with
  | JsValue.obj fields => fields.lookup key
  | _ => none

/-- `typeof x === 'number'` on the result of a property access
(`none` models `undefined`). -/
def isNumber : Option JsValue → Bool
  | some (JsValue.num _) => true
  | _ => false

/-- Lines 73, 80-83 of the consumer: `sensorId` starts as `'unknown'` and is
replaced by `data.sensorId` when `data` is truthy and that property is a
non-empty string. -/
def recoverSensorId (data : JsValue) : String :=
  if truthy data then
    match getProp data "sensorId" with
    | some (JsValue.str s) => if 0 < s.length then s else "unknown"
    | _ => "unknown"
  else "unknown"

/-- The consumer's Prometheus registry (lines 16-49): three counters and two
gauges, each partitioned by the `sensorId` label.  A gauge that was never
set for a label is `none`. -/
structure MetricState where
  received : String → ℕ
  processed : String → ℕ
  failed : String → ℕ
  lastTemperature : String → Option ℚ
  lastHumidity : String → Option ℚ

/-- `counter.labels(l).inc()`. -/
def incr (f : String → ℕ) (l : String) : String → ℕ :=
  fun x => if x = l then f x + 1 else f x

/-- `gauge.labels(l).set(v)`. -/
def setGauge (f : String → Option ℚ) (l : String) (v : ℚ) : String → Option ℚ :=
  fun x => if x = l then some v else f x

/-- The registry at process start: all counters zero, no gauge set. -/
def initialState : MetricState :=
  { received := fun _ => 0
    processed := fun _ => 0
    failed := fun _ => 0
    lastTemperature := fun _ => none
    lastHumidity := fun _ => none }

/-- Externally visible actions of one handler invocation, in program order:
broker dispositions (`channel.ack(msg)` and `channel.nack(msg, allUpTo,
requeue)`), a push attempt to the gateway with its grouping, and the error
log emitted when the push fails. -/
inductive Effect where
  | ack
  | nack (allUpTo requeue : Bool)
  | push (grouping : Option String)
  | pushError (grouping : Option String)
deriving DecidableEq

/-- A terminal broker disposition. -/
def isDisposition : Effect → Bool
  | Effect.ack => true
  | Effect.nack _ _ => true
  | _ => false

/-- A push attempt to the gateway. -/
def isPush : Effect → Bool
  | Effect.push _ => true
  | _ => false

/-- `pushMetrics` (consumer lines 54-61): attempts one push to the gateway;
when the gateway call fails (`pushFails`) the error is caught and logged
inside the function, so it returns normally either way. -/
def pushMetrics (groupings : Option String) (pushFails : Bool) : List Effect :=
  if pushFails then [Effect.push groupings, Effect.pushError groupings]
  else [Effect.push groupings]

/-- What the handler observes of `msg.content`: `JSON.parse` either throws
on the raw text or yields a value. -/
inductive Body where
  | malformed (raw : String)
  | decoded (v : JsValue)

/-- The consumer's view of a wire delivery (`ConsumeMessage`). -/
structure RawMessage where
  body : Body
  routingKey : String

/-- The catch block (consumer lines 102-108): increments
`messagesFailedCounter` under the current label and rejects the message
without requeue, then the `finally` block pushes metrics grouped by that
label. -/
def handleFailure (σ : MetricState) (sensorId : String) (pushFails : Bool) :
    MetricState × List Effect :=
  ({ σ with failed := incr σ.failed sensorId },
   Effect.nack false false :: pushMetrics (some sensorId) pushFails)

/-- The numeric value of a property access; only ever used on a property
that passed the `typeof === 'number'` test, where it is that number. -/
def jsNum : Option JsValue → ℚ
  | some (JsValue.num q) => q
  | _ => 0

/-- Line 88's thrown condition: `sensorId === 'unknown' ||
typeof data.temperature !== 'number' || typeof data.humidity !== 'number'`. -/
def rejects (data : JsValue) : Bool :=
  (recoverSensorId data == "unknown")
    || !isNumber (getProp data "temperature")
    || !isNumber (getProp data "humidity")

/-- Consumer lines 77-101 for a body that `JSON.parse` accepted: recover
the label, increment `messagesReceivedCounter`, then either throw into the
catch block (when line 88's condition holds) or complete the success path:
set both gauges to the reading's values, increment
`messagesProcessedCounter`, and `channel.ack` the message; the `finally`
block then pushes metrics grouped by the label. -/
def handleDecoded (data : JsValue) (σ : MetricState) (pushFails : Bool) :
    MetricState × List Effect :=
  let sensorId := recoverSensorId data
  let σ1 := { σ with received := incr σ.received sensorId }
  if rejects data then
    handleFailure σ1 sensorId pushFails
  else
    let σ2 := { σ1 with
      lastTemperature :=
        setGauge σ1.lastTemperature sensorId (jsNum (getProp data "temperature"))
      lastHumidity :=
        setGauge σ1.lastHumidity sensorId (jsNum (getProp data "humidity"))
      processed := incr σ1.processed sensorId }
    (σ2, Effect.ack :: pushMetrics (some sensorId) pushFails)

/-- `handleMessage` (consumer lines 68-119).  A `null` message returns at
once.  Otherwise `JSON.parse` failure jumps to the catch block with the
label still `'unknown'`; a parsed body runs the validation path.  The
outer try/catch (lines 113-118) guards faults of the handler logic itself,
which the deterministic model has none of, so it is not a reachable path
here; broker disposition failures are out of core scope per the design. -/
def handleMessage (msg : Option RawMessage) (σ : MetricState)
    (pushFails : Bool) : MetricState × List Effect :=
  match msg with
  | none => (σ, [])
  | some m =>
    match m.body with
    | Body.malformed _ => handleFailure σ "unknown" pushFails
    | Body.decoded data => handleDecoded data σ pushFails

/-- The label a non-null message's invocation uses for its metric updates
and push grouping. -/
def labelOf (m : RawMessage) : String :=
  match m.body with
  | Body.malformed _ => "unknown"
  | Body.decoded data => recoverSensorId data

/-- The terminal disposition a non-null message's invocation issues:
`channel.ack` when the body parsed and line 88's condition is false,
`channel.nack(msg, false, false)` otherwise. -/
def dispoOf (m : RawMessage) : Effect :=
  match m.body with
  | Body.malformed _ => Effect.nack false false
  | Body.decoded data =>
    if rejects data then Effect.nack false false else Effect.ack

/-- Fold a sequence of deliveries through the handler, threading the
registry state. -/
def runSeq (σ : MetricState) (pushFails : Bool) (ms : List RawMessage) :
    MetricState :=
  ms.foldl (fun s m => (handleMessage (some m) s pushFails).1) σ

/-- A well-formed reading for sensor `s`, as the producer would publish it. -/
def validMsg (s : String) (t h : ℚ) : RawMessage :=
  { body := Body.decoded (JsValue.obj
      [("sensorId", JsValue.str s),
       ("temperature", JsValue.num t),
       ("humidity", JsValue.num h)])
    routingKey := "sensor.temperature_humidity" }

/-- Counters never decrease from `σ` to `σ'` at any label. -/
def countersMonotone (σ σ' : MetricState) : Prop :=
  ∀ l, σ.received l ≤ σ'.received l
    ∧ σ.processed l ≤ σ'.processed l
    ∧ σ.failed l ≤ σ'.failed l

/-- The producer's sensor identity, defaulted (`SENSOR_ID` env var absent):
`'dht22-01'`. -/
def SENSOR_ID : String := "dht22-01"

/-- `getRandomValue` (producer lines 17-21) with the random draw made an
explicit argument: scale into `[mn, mx)`, truncate to `decimalPlaces`
decimals. -/
def getRandomValue (mn mx : ℚ) (decimalPlaces : ℕ) (rand : ℚ) : ℚ :=
  let r := rand * (mx - mn) + mn
  let power : ℚ := 10 ^ decimalPlaces
  ((⌊r * power⌋ : ℤ) : ℚ) / power

/-- `generateSensorData` (producer lines 27-39) with the two random draws
and the clock reading made explicit arguments; field order as serialized
by `JSON.stringify`. -/
def generateSensorData (r1 r2 : ℚ) (timestamp : String) : JsValue :=
  JsValue.obj
    [("temperature", JsValue.num (getRandomValue 18 28 2 r1)),
     ("humidity", JsValue.num (getRandomValue 40 60 2 r2)),
     ("timestamp", JsValue.str timestamp),
     ("sensorId", JsValue.str SENSOR_ID)]

/-- A delivery whose body fails `JSON.parse` (spec scenario B). -/
def notJsonMsg : RawMessage :=
  { body := Body.malformed "not json"
    routingKey := "sensor.temperature_humidity" }

/-- The spec scenario-A reading:
`{temperature: 22.5, humidity: 45.5, sensorId: "dht22-01"}`. -/
def sampleReading : JsValue :=
  JsValue.obj
    [("temperature", JsValue.num (45 / 2)),
     ("humidity", JsValue.num (91 / 2)),
     ("sensorId", JsValue.str "dht22-01")]

/-- A reading whose sensorId is literally the sentinel string `"unknown"`
but whose temperature and humidity are numeric. -/
def sentinelIdReading : JsValue :=
  JsValue.obj
    [("temperature", JsValue.num 21),
     ("humidity", JsValue.num 50),
     ("sensorId", JsValue.str "unknown")]

/-- A reading whose sensorId is literally `"unknown"` and whose
temperature is a string, failing the numeric check. -/
def sentinelIdBadTempReading : JsValue :=
  JsValue.obj
    [("temperature", JsValue.str "x"),
     ("humidity", JsValue.num 50),
     ("sensorId", JsValue.str "unknown")]

/-- A reading with a recoverable sensorId and a non-numeric temperature. -/
def badTempReading : JsValue :=
  JsValue.obj
    [("temperature", JsValue.str "oops"),
     ("humidity", JsValue.num 50),
     ("sensorId", JsValue.str "dht22-05")]

-- Sanity checks on concrete inputs (spec scenarios A and B).
example :
    (handleMessage (some (validMsg "dht22-01" (45/2) (91/2))) initialState
      false).2 = [Effect.ack, Effect.push (some "dht22-01")] := by decide

example :
    (handleMessage (some notJsonMsg) initialState
      false).2 = [Effect.nack false false, Effect.push (some "unknown")] := by
  decide

example :
    (handleMessage (some notJsonMsg) initialState false).1.failed "unknown"
      = 1 := by decide

example :
    (handleMessage (some notJsonMsg) initialState false).1.received "unknown"
      = 0 := by decide

lemma le_incr (f : String → ℕ) (l x : String) : f x ≤ incr f l x := by
  unfold incr; split <;> omega

lemma incr_self (f : String → ℕ) (l : String) : incr f l l = f l + 1 := by
  simp [incr]

lemma incr_ne (f : String → ℕ) (l x : String) (h : x ≠ l) :
    incr f l x = f x := by simp [incr, h]

lemma setGauge_self (f : String → Option ℚ) (l : String) (v : ℚ) :
    setGauge f l v l = some v := by simp [setGauge]

lemma setGauge_ne (f : String → Option ℚ) (l : String) (v : ℚ) (x : String)
    (h : x ≠ l) : setGauge f l v x = f x := by simp [setGauge, h]

lemma pushMetrics_countP_dispo (g : Option String) (pf : Bool) :
    (pushMetrics g pf).countP isDisposition = 0 := by cases pf <;> rfl

lemma pushMetrics_countP_push (g : Option String) (pf : Bool) :
    (pushMetrics g pf).countP isPush = 1 := by cases pf <;> rfl

lemma push_mem_pushMetrics (g : Option String) (pf : Bool) :
    Effect.push g ∈ pushMetrics g pf := by cases pf <;> simp [pushMetrics]

lemma ack_not_mem_pushMetrics (g : Option String) (pf : Bool) :
    Effect.ack ∉ pushMetrics g pf := by cases pf <;> simp [pushMetrics]

lemma nack_not_mem_pushMetrics (g : Option String) (pf : Bool) (a r : Bool) :
    Effect.nack a r ∉ pushMetrics g pf := by cases pf <;> simp [pushMetrics]

/-- The effect trace of a non-null invocation is always the disposition
followed by the labelled push attempt. -/
lemma handleMessage_effects (m : RawMessage) (σ : MetricState) (pf : Bool) :
    (handleMessage (some m) σ pf).2
      = dispoOf m :: pushMetrics (some (labelOf m)) pf := by
  cases m with
  | mk body rk =>
    cases body with
    | malformed raw => rfl
    | decoded data =>
      show (handleDecoded data σ pf).2 = _
      unfold handleDecoded dispoOf labelOf
      by_cases h : rejects data <;> simp [h, handleFailure]

/-- The registry state after an invocation does not depend on whether the
metrics push succeeds. -/
lemma handleMessage_state_pf (msg : Option RawMessage) (σ : MetricState)
    (pf pf' : Bool) :
    (handleMessage msg σ pf).1 = (handleMessage msg σ pf').1 := by
  cases msg with
  | none => rfl
  | some m =>
    cases m with
    | mk body rk =>
      cases body with
      | malformed raw => rfl
      | decoded data =>
        show (handleDecoded data σ pf).1 = (handleDecoded data σ pf').1
        unfold handleDecoded
        by_cases h : rejects data <;> simp [h, handleFailure]

/-- Success path of `handleDecoded`, written out. -/
lemma handleDecoded_valid (data : JsValue) (σ : MetricState) (pf : Bool)
    (hr : rejects data = false) :
    handleDecoded data σ pf =
      ({ σ with
          received := incr σ.received (recoverSensorId data)
          lastTemperature := setGauge σ.lastTemperature (recoverSensorId data)
            (jsNum (getProp data "temperature"))
          lastHumidity := setGauge σ.lastHumidity (recoverSensorId data)
            (jsNum (getProp data "humidity"))
          processed := incr σ.processed (recoverSensorId data) },
       Effect.ack :: pushMetrics (some (recoverSensorId data)) pf) := by
  unfold handleDecoded
  simp [hr]

/-- Failure path of `handleDecoded`, written out. -/
lemma handleDecoded_reject (data : JsValue) (σ : MetricState) (pf : Bool)
    (hr : rejects data = true) :
    handleDecoded data σ pf =
      ({ σ with
          received := incr σ.received (recoverSensorId data)
          failed := incr σ.failed (recoverSensorId data) },
       Effect.nack false false
         :: pushMetrics (some (recoverSensorId data)) pf) := by
  unfold handleDecoded
  simp [hr, handleFailure]

/-- Line 88's condition is false for a body carrying a usable sensor
identity and numeric temperature and humidity. -/
lemma rejects_false_of (data : JsValue) (s : String) (t h : ℚ)
    (hs : recoverSensorId data = s) (hu : s ≠ "unknown")
    (ht : getProp data "temperature" = some (JsValue.num t))
    (hh : getProp data "humidity" = some (JsValue.num h)) :
    rejects data = false := by
  unfold rejects
  simp [hs, ht, hh, isNumber, hu]

/-- The disposition of any non-null message is a terminal one. -/
lemma dispoOf_isDispo (m : RawMessage) : isDisposition (dispoOf m) = true := by
  cases m with
  | mk body rk =>
    cases body with
    | malformed raw => rfl
    | decoded data =>
      unfold dispoOf
      by_cases h : rejects data <;> simp [h, isDisposition]

/-- Every non-null invocation records exactly one terminal disposition. -/
lemma handleMessage_countP_dispo (m : RawMessage) (σ : MetricState)
    (pf : Bool) :
    ((handleMessage (some m) σ pf).2).countP isDisposition = 1 := by
  rw [handleMessage_effects]
  simp [List.countP_cons, pushMetrics_countP_dispo, dispoOf_isDispo]

/-- Every non-null invocation records exactly one push attempt. -/
lemma handleMessage_countP_push (m : RawMessage) (σ : MetricState)
    (pf : Bool) :
    ((handleMessage (some m) σ pf).2).countP isPush = 1 := by
  rw [handleMessage_effects]
  have hd : isPush (dispoOf m) = false := by
    cases m with
    | mk body rk =>
      cases body with
      | malformed raw => rfl
      | decoded data =>
        unfold dispoOf
        by_cases h : rejects data <;> simp [h, isPush]
  simp [List.countP_cons, pushMetrics_countP_push, hd]

/-- Claim C1 counterexample: the spec scenario-B message (body `"not json"`,
which `JSON.parse` rejects) processed from the fresh registry leaves
`received["unknown"]` at 0: the increment at line 85 sits after
`JSON.parse`, so a decode failure jumps to the catch block before any
`received` increment, and the counter does not grow by 1 as claimed. -/
theorem c1_counterexample :
    initialState.received "unknown" = 0
    ∧ (handleMessage (some notJsonMsg) initialState false).1.received
        "unknown" = 0 := by
  constructor
  · rfl
  · decide

/-- Claim C1 (amended): a non-null RawMessage whose body fails to decode as
JSON leaves the `received` counter unchanged at every label (the parse
throw precedes the increment, so no label is ever counted); for every
message whose body decodes, `received` grows by exactly 1 under the
determined label and is unchanged at every other label. -/
theorem c1_received_only_counts_decoded :
    (∀ (raw rk : String) (σ : MetricState) (pf : Bool) (l : String),
      (handleMessage (some ⟨Body.malformed raw, rk⟩) σ pf).1.received l
        = σ.received l)
    ∧ (∀ (data : JsValue) (rk : String) (σ : MetricState) (pf : Bool),
        (handleMessage (some ⟨Body.decoded data, rk⟩) σ pf).1.received
            (recoverSensorId data)
          = σ.received (recoverSensorId data) + 1
        ∧ ∀ l, l ≠ recoverSensorId data →
            (handleMessage (some ⟨Body.decoded data, rk⟩) σ pf).1.received l
              = σ.received l) := by
  constructor
  · intro raw rk σ pf l
    rfl
  · intro data rk σ pf
    have hst : (handleMessage (some ⟨Body.decoded data, rk⟩) σ pf).1.received
        = incr σ.received (recoverSensorId data) := by
      show (handleDecoded data σ pf).1.received = _
      cases h : rejects data
      · rw [handleDecoded_valid data σ pf h]
      · rw [handleDecoded_reject data σ pf h]
    rw [hst]
    exact ⟨incr_self _ _, fun l hl => incr_ne _ _ _ hl⟩

/-- Witness for the amended claim C1: one undecodable body and one decoded
body, both from the fresh registry. -/
theorem c1_witness :
    (handleMessage (some ⟨Body.malformed "not json", "k"⟩) initialState
        false).1.received "unknown" = initialState.received "unknown"
    ∧ (handleMessage (some ⟨Body.decoded sampleReading, "k"⟩) initialState
        false).1.received (recoverSensorId sampleReading)
      = initialState.received (recoverSensorId sampleReading) + 1 :=
  ⟨c1_received_only_counts_decoded.1 "not json" "k" initialState false
     "unknown",
   (c1_received_only_counts_decoded.2 sampleReading "k" initialState
     false).1⟩

/-- Claim C2: one invocation of the handler on a non-null RawMessage issues
exactly one terminal disposition (ack or reject) to the broker — never
both, never neither. -/
theorem c2_exactly_one_disposition (m : RawMessage) (σ : MetricState)
    (pf : Bool) :
    ((handleMessage (some m) σ pf).2).countP isDisposition = 1 :=
  handleMessage_countP_dispo m σ pf

/-- Claim C4: a non-null RawMessage whose body is not decodable as JSON is
rejected with requeue disabled (and never acked), `failed["unknown"]` grows
by exactly 1, every other `failed` label is unchanged, and every
temperature and humidity gauge is unchanged. -/
theorem c4_malformed_rejected (raw rk : String) (σ : MetricState)
    (pf : Bool) :
    Effect.nack false false
        ∈ (handleMessage (some ⟨Body.malformed raw, rk⟩) σ pf).2
    ∧ Effect.ack ∉ (handleMessage (some ⟨Body.malformed raw, rk⟩) σ pf).2
    ∧ (handleMessage (some ⟨Body.malformed raw, rk⟩) σ pf).1.failed "unknown"
        = σ.failed "unknown" + 1
    ∧ (∀ l, l ≠ "unknown" →
        (handleMessage (some ⟨Body.malformed raw, rk⟩) σ pf).1.failed l
          = σ.failed l)
    ∧ (∀ l,
        (handleMessage (some ⟨Body.malformed raw, rk⟩) σ pf).1.lastTemperature
          l = σ.lastTemperature l)
    ∧ (∀ l,
        (handleMessage (some ⟨Body.malformed raw, rk⟩) σ pf).1.lastHumidity l
          = σ.lastHumidity l) := by
  refine ⟨?_, ?_, ?_, ?_, ?_, ?_⟩
  · exact List.mem_cons_self _ _
  · intro hmem
    rcases List.mem_cons.1 hmem with hq | hq
    · exact Effect.noConfusion hq
    · exact ack_not_mem_pushMetrics _ _ hq
  · show incr σ.failed "unknown" "unknown" = σ.failed "unknown" + 1
    exact incr_self _ _
  · intro l hl
    show incr σ.failed "unknown" l = σ.failed l
    exact incr_ne _ _ _ hl
  · intro l
    rfl
  · intro l
    rfl

/-- Witness for claim C4 at the spec scenario-B body from the fresh
registry. -/
theorem c4_witness :
    Effect.nack false false
        ∈ (handleMessage (some ⟨Body.malformed "not json", "k"⟩)
            initialState false).2
    ∧ Effect.ack ∉ (handleMessage (some ⟨Body.malformed "not json", "k"⟩)
        initialState false).2
    ∧ (handleMessage (some ⟨Body.malformed "not json", "k"⟩)
        initialState false).1.failed "unknown"
        = initialState.failed "unknown" + 1
    ∧ (∀ l, l ≠ "unknown" →
        (handleMessage (some ⟨Body.malformed "not json", "k"⟩)
          initialState false).1.failed l = initialState.failed l)
    ∧ (∀ l,
        (handleMessage (some ⟨Body.malformed "not json", "k"⟩)
          initialState false).1.lastTemperature l
          = initialState.lastTemperature l)
    ∧ (∀ l,
        (handleMessage (some ⟨Body.malformed "not json", "k"⟩)
          initialState false).1.lastHumidity l
          = initialState.lastHumidity l) :=
  c4_malformed_rejected "not json" "k" initialState false

/-- Claim C8: a null RawMessage leaves the registry untouched and produces
no effect at all: no disposition, no push. -/
theorem c8_null_message_no_effects (σ : MetricState) (pf : Bool) :
    handleMessage none σ pf = (σ, []) := rfl

/-- Claim C3 counterexample: the body `{"temperature": 21, "humidity": 50,
"sensorId": "unknown"}` decodes to an object with a non-empty string
sensorId and numeric temperature and humidity, yet the handler rejects it
and never acks, and `processed["unknown"]` stays 0: line 88 treats the
recovered label `'unknown'` as the sentinel for a missing identity, so a
sensor actually named `"unknown"` is thrown into the failure path. -/
theorem c3_counterexample :
    (handleMessage (some ⟨Body.decoded sentinelIdReading, "k"⟩)
        initialState false).2
      = [Effect.nack false false, Effect.push (some "unknown")]
    ∧ (handleMessage (some ⟨Body.decoded sentinelIdReading, "k"⟩)
        initialState false).1.processed "unknown" = 0 := by
  refine ⟨?_, ?_⟩ <;> decide

/-- Claim C3 (amended): for every non-null RawMessage whose body decodes to
an object with a non-empty string sensorId other than the sentinel string
`"unknown"` and numeric temperature and humidity fields, the handler acks
(and never rejects), increments `processed[sensorId]` by exactly 1 leaving
other labels unchanged, and sets the two gauges for that sensor to the
message's values. -/
theorem c3_valid_reading_acked (data : JsValue) (rk : String)
    (σ : MetricState) (pf : Bool) (s : String) (t h : ℚ)
    (hs : recoverSensorId data = s) (hu : s ≠ "unknown")
    (ht : getProp data "temperature" = some (JsValue.num t))
    (hh : getProp data "humidity" = some (JsValue.num h)) :
    Effect.ack ∈ (handleMessage (some ⟨Body.decoded data, rk⟩) σ pf).2
    ∧ (∀ a r, Effect.nack a r
        ∉ (handleMessage (some ⟨Body.decoded data, rk⟩) σ pf).2)
    ∧ (handleMessage (some ⟨Body.decoded data, rk⟩) σ pf).1.processed s
        = σ.processed s + 1
    ∧ (∀ l, l ≠ s →
        (handleMessage (some ⟨Body.decoded data, rk⟩) σ pf).1.processed l
          = σ.processed l)
    ∧ (handleMessage (some ⟨Body.decoded data, rk⟩) σ pf).1.lastTemperature s
        = some t
    ∧ (handleMessage (some ⟨Body.decoded data, rk⟩) σ pf).1.lastHumidity s
        = some h := by
  have hr : rejects data = false := rejects_false_of data s t h hs hu ht hh
  have he : handleMessage (some ⟨Body.decoded data, rk⟩) σ pf
      = handleDecoded data σ pf := rfl
  rw [he, handleDecoded_valid data σ pf hr]
  refine ⟨List.mem_cons_self _ _, ?_, ?_, ?_, ?_, ?_⟩
  · intro a r hmem
    rcases List.mem_cons.1 hmem with hq | hq
    · exact Effect.noConfusion hq
    · exact nack_not_mem_pushMetrics _ _ _ _ hq
  · show incr σ.processed (recoverSensorId data) s = σ.processed s + 1
    rw [hs]
    exact incr_self _ _
  · intro l hl
    show incr σ.processed (recoverSensorId data) l = σ.processed l
    rw [hs]
    exact incr_ne _ _ _ hl
  · show setGauge σ.lastTemperature (recoverSensorId data)
        (jsNum (getProp data "temperature")) s = some t
    rw [hs, ht]
    exact setGauge_self _ _ _
  · show setGauge σ.lastHumidity (recoverSensorId data)
        (jsNum (getProp data "humidity")) s = some h
    rw [hs, hh]
    exact setGauge_self _ _ _

/-- Witness for the amended claim C3 at the spec scenario-A reading. -/
theorem c3_witness :
    recoverSensorId sampleReading = "dht22-01"
    ∧ ("dht22-01" : String) ≠ "unknown"
    ∧ getProp sampleReading "temperature" = some (JsValue.num (45 / 2))
    ∧ getProp sampleReading "humidity" = some (JsValue.num (91 / 2))
    ∧ (Effect.ack
          ∈ (handleMessage
              (some ⟨Body.decoded sampleReading, "sensor.temperature_humidity"⟩)
              initialState false).2
      ∧ (∀ a r, Effect.nack a r
          ∉ (handleMessage
              (some ⟨Body.decoded sampleReading, "sensor.temperature_humidity"⟩)
              initialState false).2)
      ∧ (handleMessage
          (some ⟨Body.decoded sampleReading, "sensor.temperature_humidity"⟩)
          initialState false).1.processed "dht22-01"
          = initialState.processed "dht22-01" + 1
      ∧ (∀ l, l ≠ "dht22-01" →
          (handleMessage
            (some ⟨Body.decoded sampleReading, "sensor.temperature_humidity"⟩)
            initialState false).1.processed l = initialState.processed l)
      ∧ (handleMessage
          (some ⟨Body.decoded sampleReading, "sensor.temperature_humidity"⟩)
          initialState false).1.lastTemperature "dht22-01" = some (45 / 2)
      ∧ (handleMessage
          (some ⟨Body.decoded sampleReading, "sensor.temperature_humidity"⟩)
          initialState false).1.lastHumidity "dht22-01" = some (91 / 2)) :=
  ⟨rfl, by decide, rfl, rfl,
   c3_valid_reading_acked sampleReading "sensor.temperature_humidity"
     initialState false "dht22-01" (45 / 2) (91 / 2) rfl (by decide) rfl rfl⟩

/-- Claim C5 counterexample: the body `{"temperature": "x", "humidity": 50,
"sensorId": "unknown"}` decodes to an object with a non-empty string
sensorId and a non-numeric temperature; the recovered sensorId is the
string `"unknown"`, so the failed increment lands on the label `"unknown"`
— the claim's "not `"unknown"`" clause does not hold for this input. -/
theorem c5_counterexample :
    recoverSensorId sentinelIdBadTempReading = "unknown"
    ∧ (handleMessage (some ⟨Body.decoded sentinelIdBadTempReading, "k"⟩)
        initialState false).1.failed "unknown" = 1 := by
  refine ⟨rfl, ?_⟩
  decide

/-- Claim C5 (amended): for every non-null RawMessage whose body decodes
with a missing or non-numeric temperature or humidity field, the handler
rejects with requeue disabled (and never acks) and increments
`failed[sensorId]` by exactly 1 under the recovered sensorId as label,
leaving other labels unchanged; the label differs from `"unknown"` except
when the recovered sensorId is itself the string `"unknown"` (or was never
recovered). -/
theorem c5_schema_failure_uses_recovered_label (data : JsValue) (rk : String)
    (σ : MetricState) (pf : Bool)
    (hbad : isNumber (getProp data "temperature") = false
          ∨ isNumber (getProp data "humidity") = false) :
    Effect.nack false false
        ∈ (handleMessage (some ⟨Body.decoded data, rk⟩) σ pf).2
    ∧ Effect.ack ∉ (handleMessage (some ⟨Body.decoded data, rk⟩) σ pf).2
    ∧ (handleMessage (some ⟨Body.decoded data, rk⟩) σ pf).1.failed
          (recoverSensorId data)
        = σ.failed (recoverSensorId data) + 1
    ∧ (∀ l, l ≠ recoverSensorId data →
        (handleMessage (some ⟨Body.decoded data, rk⟩) σ pf).1.failed l
          = σ.failed l) := by
  have hr : rejects data = true := by
    unfold rejects
    rcases hbad with hq | hq <;> simp [hq]
  have he : handleMessage (some ⟨Body.decoded data, rk⟩) σ pf
      = handleDecoded data σ pf := rfl
  rw [he, handleDecoded_reject data σ pf hr]
  refine ⟨List.mem_cons_self _ _, ?_, ?_, ?_⟩
  · intro hmem
    rcases List.mem_cons.1 hmem with hq | hq
    · exact Effect.noConfusion hq
    · exact ack_not_mem_pushMetrics _ _ hq
  · show incr σ.failed (recoverSensorId data) (recoverSensorId data)
        = σ.failed (recoverSensorId data) + 1
    exact incr_self _ _
  · intro l hl
    show incr σ.failed (recoverSensorId data) l = σ.failed l
    exact incr_ne _ _ _ hl

/-- Witness for the amended claim C5 at a reading with sensorId
`"dht22-05"` and a string-valued temperature. -/
theorem c5_witness :
    (isNumber (getProp badTempReading "temperature") = false
      ∨ isNumber (getProp badTempReading "humidity") = false)
    ∧ (Effect.nack false false
          ∈ (handleMessage (some ⟨Body.decoded badTempReading, "k"⟩)
              initialState false).2
      ∧ Effect.ack
          ∉ (handleMessage (some ⟨Body.decoded badTempReading, "k"⟩)
              initialState false).2
      ∧ (handleMessage (some ⟨Body.decoded badTempReading, "k"⟩)
          initialState false).1.failed (recoverSensorId badTempReading)
          = initialState.failed (recoverSensorId badTempReading) + 1
      ∧ (∀ l, l ≠ recoverSensorId badTempReading →
          (handleMessage (some ⟨Body.decoded badTempReading, "k"⟩)
            initialState false).1.failed l = initialState.failed l)) :=
  ⟨Or.inl rfl,
   c5_schema_failure_uses_recovered_label badTempReading "k" initialState
     false (Or.inl rfl)⟩

/-- Claim C6: the handler is total over every possible non-null RawMessage
(the embedding is a total function over all bodies: decode failures and
arbitrary JSON values including non-objects), and on every input the
disposition and metrics logic still runs: exactly one terminal disposition
is issued, exactly one push is attempted, and exactly one of
`processed`/`failed` grows by 1 at the determined label.  Parse and
validation throws are absorbed by the catch block (lines 102-108); the
model has no other fault source, matching the outer safeguard (lines
113-118) never firing. -/
theorem c6_handler_total (m : RawMessage) (σ : MetricState) (pf : Bool) :
    ((handleMessage (some m) σ pf).2).countP isDisposition = 1
    ∧ ((handleMessage (some m) σ pf).2).countP isPush = 1
    ∧ (handleMessage (some m) σ pf).1.processed (labelOf m)
        + (handleMessage (some m) σ pf).1.failed (labelOf m)
      = σ.processed (labelOf m) + σ.failed (labelOf m) + 1 := by
  refine ⟨handleMessage_countP_dispo m σ pf,
    handleMessage_countP_push m σ pf, ?_⟩
  cases m with
  | mk body rk =>
    cases body with
    | malformed raw =>
      show σ.processed "unknown" + incr σ.failed "unknown" "unknown"
        = σ.processed "unknown" + σ.failed "unknown" + 1
      rw [incr_self]
      omega
    | decoded data =>
      show (handleDecoded data σ pf).1.processed (recoverSensorId data)
          + (handleDecoded data σ pf).1.failed (recoverSensorId data)
        = σ.processed (recoverSensorId data)
          + σ.failed (recoverSensorId data) + 1
      cases hr : rejects data
      · rw [handleDecoded_valid data σ pf hr]
        show incr σ.processed (recoverSensorId data) (recoverSensorId data)
            + σ.failed (recoverSensorId data) = _
        rw [incr_self]
        omega
      · rw [handleDecoded_reject data σ pf hr]
        show σ.processed (recoverSensorId data)
            + incr σ.failed (recoverSensorId data) (recoverSensorId data) = _
        rw [incr_self]
        omega

/-- Claim C7: every non-null invocation's trace is the single broker
disposition followed by exactly one push attempt grouped under the metrics
label; `pushMetrics` returns normally whether or not the gateway call
fails (a failure only appends an error log to the trace), the disposition
`dispoOf m` is a function of the message alone and thus unaltered by the
push outcome, and the registry state is identical under push success and
failure. -/
theorem c7_single_push_after_disposition (m : RawMessage) (σ : MetricState)
    (pf : Bool) :
    (handleMessage (some m) σ pf).2
        = dispoOf m :: pushMetrics (some (labelOf m)) pf
    ∧ ((handleMessage (some m) σ pf).2).countP isPush = 1
    ∧ Effect.push (some (labelOf m)) ∈ (handleMessage (some m) σ pf).2
    ∧ (handleMessage (some m) σ true).1 = (handleMessage (some m) σ false).1
    := by
  refine ⟨handleMessage_effects m σ pf, handleMessage_countP_push m σ pf,
    ?_, handleMessage_state_pf (some m) σ true false⟩
  rw [handleMessage_effects]
  exact List.mem_cons_of_mem _ (push_mem_pushMetrics _ _)

lemma runSeq_append_single (σ : MetricState) (pf : Bool)
    (xs : List RawMessage) (m : RawMessage) :
    runSeq σ pf (xs ++ [m])
      = (handleMessage (some m) (runSeq σ pf xs) pf).1 := by
  unfold runSeq
  rw [List.foldl_append]
  rfl

lemma recoverSensorId_validMsg (s : String) (t h : ℚ) (hlen : 0 < s.length) :
    recoverSensorId (JsValue.obj
      [("sensorId", JsValue.str s),
       ("temperature", JsValue.num t),
       ("humidity", JsValue.num h)]) = s := by
  show (if 0 < s.length then s else "unknown") = s
  simp [hlen]

/-- Handling a well-formed reading for a usable sensor identity sets both
gauges for that sensor to the reading's values. -/
lemma validMsg_gauges (s : String) (t h : ℚ) (σ : MetricState) (pf : Bool)
    (hlen : 0 < s.length) (hu : s ≠ "unknown") :
    (handleMessage (some (validMsg s t h)) σ pf).1.lastTemperature s = some t
    ∧ (handleMessage (some (validMsg s t h)) σ pf).1.lastHumidity s
        = some h := by
  have hrec := recoverSensorId_validMsg s t h hlen
  have hr : rejects (JsValue.obj
      [("sensorId", JsValue.str s),
       ("temperature", JsValue.num t),
       ("humidity", JsValue.num h)]) = false :=
    rejects_false_of _ s t h hrec hu rfl rfl
  constructor
  · show (handleDecoded (JsValue.obj
        [("sensorId", JsValue.str s),
         ("temperature", JsValue.num t),
         ("humidity", JsValue.num h)]) σ pf).1.lastTemperature s = some t
    rw [handleDecoded_valid _ σ pf hr]
    show setGauge σ.lastTemperature
        (recoverSensorId (JsValue.obj
          [("sensorId", JsValue.str s),
           ("temperature", JsValue.num t),
           ("humidity", JsValue.num h)]))
        t s = some t
    rw [hrec]
    exact setGauge_self _ _ _
  · show (handleDecoded (JsValue.obj
        [("sensorId", JsValue.str s),
         ("temperature", JsValue.num t),
         ("humidity", JsValue.num h)]) σ pf).1.lastHumidity s = some h
    rw [handleDecoded_valid _ σ pf hr]
    show setGauge σ.lastHumidity
        (recoverSensorId (JsValue.obj
          [("sensorId", JsValue.str s),
           ("temperature", JsValue.num t),
           ("humidity", JsValue.num h)]))
        h s = some h
    rw [hrec]
    exact setGauge_self _ _ _

/-- Claim C9: after any sequence of valid readings for one sensor ending in
the reading `(t, h)`, the gauges for that sensor hold exactly `t` and `h`
(last write wins); and every handler invocation — any message, any state —
leaves all three counters non-decreasing at every label (they are only
ever incremented, never reset). -/
theorem c9_gauges_last_write_counters_monotone (σ : MetricState) (pf : Bool)
    (s : String) (prev : List (ℚ × ℚ)) (t h : ℚ)
    (hlen : 0 < s.length) (hu : s ≠ "unknown") :
    ((runSeq σ pf
        ((prev ++ [(t, h)]).map fun p => validMsg s p.1 p.2)).lastTemperature
        s = some t
    ∧ (runSeq σ pf
        ((prev ++ [(t, h)]).map fun p => validMsg s p.1 p.2)).lastHumidity s
        = some h)
    ∧ ∀ (σ' : MetricState) (msg : Option RawMessage),
        countersMonotone σ' (handleMessage msg σ' pf).1 := by
  constructor
  · have hmap : (prev ++ [(t, h)]).map (fun p => validMsg s p.1 p.2)
        = (prev.map fun p => validMsg s p.1 p.2) ++ [validMsg s t h] := by
      simp
    rw [hmap, runSeq_append_single]
    exact validMsg_gauges s t h _ pf hlen hu
  · intro σ' msg l
    cases msg with
    | none => exact ⟨le_refl _, le_refl _, le_refl _⟩
    | some m =>
      cases m with
      | mk body rk =>
        cases body with
        | malformed raw =>
          refine ⟨le_refl _, le_refl _, ?_⟩
          show σ'.failed l ≤ incr σ'.failed "unknown" l
          exact le_incr _ _ _
        | decoded data =>
          show σ'.received l ≤ (handleDecoded data σ' pf).1.received l
            ∧ σ'.processed l ≤ (handleDecoded data σ' pf).1.processed l
            ∧ σ'.failed l ≤ (handleDecoded data σ' pf).1.failed l
          cases hr : rejects data
          · rw [handleDecoded_valid data σ' pf hr]
            exact ⟨le_incr _ _ _, le_incr _ _ _, le_refl _⟩
          · rw [handleDecoded_reject data σ' pf hr]
            exact ⟨le_incr _ _ _, le_refl _, le_incr _ _ _⟩

/-- Witness for claim C9: two valid readings for `dht22-01`; the gauges
end at the second reading's values. -/
theorem c9_witness :
    0 < ("dht22-01" : String).length
    ∧ ("dht22-01" : String) ≠ "unknown"
    ∧ (((runSeq initialState false
          (([((1 : ℚ), (2 : ℚ))] ++ [((3 : ℚ), (4 : ℚ))]).map
            fun p => validMsg "dht22-01" p.1 p.2)).lastTemperature "dht22-01"
          = some 3
      ∧ (runSeq initialState false
          (([((1 : ℚ), (2 : ℚ))] ++ [((3 : ℚ), (4 : ℚ))]).map
            fun p => validMsg "dht22-01" p.1 p.2)).lastHumidity "dht22-01"
          = some 4)
    ∧ ∀ (σ' : MetricState) (msg : Option RawMessage),
        countersMonotone σ' (handleMessage msg σ' false).1) :=
  ⟨by decide, by decide,
   c9_gauges_last_write_counters_monotone initialState false "dht22-01"
     [(1, 2)] 3 4 (by decide) (by decide)⟩

/-- Claim C10: every record the producer's `generateSensorData` can return
with the default sensor identity — any random draws, any clock reading —
round-trips through JSON serialization into a body the consumer's handler
acks and never rejects. -/
theorem c10_producer_roundtrip_acked (r1 r2 : ℚ) (ts rk : String)
    (σ : MetricState) (pf : Bool) :
    Effect.ack
        ∈ (handleMessage
            (some ⟨Body.decoded (generateSensorData r1 r2 ts), rk⟩) σ pf).2
    ∧ ∀ a r, Effect.nack a r
        ∉ (handleMessage
            (some ⟨Body.decoded (generateSensorData r1 r2 ts), rk⟩) σ pf).2
    := by
  have hrec : recoverSensorId (generateSensorData r1 r2 ts) = "dht22-01" := by
    show (if 0 < ("dht22-01" : String).length then "dht22-01" else "unknown")
      = "dht22-01"
    decide
  have hr : rejects (generateSensorData r1 r2 ts) = false :=
    rejects_false_of _ "dht22-01" (getRandomValue 18 28 2 r1)
      (getRandomValue 40 60 2 r2) hrec (by decide) rfl rfl
  have he : handleMessage
      (some ⟨Body.decoded (generateSensorData r1 r2 ts), rk⟩) σ pf
      = handleDecoded (generateSensorData r1 r2 ts) σ pf := rfl
  rw [he, handleDecoded_valid _ σ pf hr]
  refine ⟨List.mem_cons_self _ _, ?_⟩
  intro a r hmem
  rcases List.mem_cons.1 hmem with hq | hq
  · exact Effect.noConfusion hq
  · exact nack_not_mem_pushMetrics _ _ _ _ hq

/-- Witness for claim C10 at concrete random draws and clock reading. -/
theorem c10_witness :
    Effect.ack
        ∈ (handleMessage
            (some ⟨Body.decoded (generateSensorData 0 0 "t"), "k"⟩)
            initialState false).2
    ∧ ∀ a r, Effect.nack a r
        ∉ (handleMessage
            (some ⟨Body.decoded (generateSensorData 0 0 "t"), "k"⟩)
            initialState false).2 :=
  c10_producer_roundtrip_acked 0 0 "t" "k" initialState false
